import Mathlib

/-!
Deploy script `deploy/00_deploy_your_contract.js`.

A shallow embedding of the hardhat-deploy script that deploys the `Balloons`
token and the `DEX`, and then bootstraps the exchange (transfer, approve, init).

The script is a chain of `await`s over services supplied by its caller
(`getNamedAccounts`, `getChainId`, `deployments.deploy`, `ethers.getContract`
and the methods of the returned contract handles).  Those services are the
fields of `Env`; each of them maps a state of the outside world to the way the
returned promise settles plus the next state.  A run of the script yields the
way its own promise settles, the trace of everything it did, and the final
state of the outside world.
-/

namespace Dex

/-! ## Values -/

abbrev Address := String

/-- A thrown JavaScript error, identified by its message. -/
abbrev Err := String

/-- The three fates of an awaited promise: fulfilled, rejected, never settled. -/
inductive Settled (α : Type) where
  | ok (a : α)
  | threw (e : Err)
  | pending
  deriving DecidableEq, Repr, Inhabited

/-- The object returned by `getNamedAccounts()`; the script reads `deployer`. -/
structure NamedAccounts where
  deployer : Address
  deriving DecidableEq, Repr, Inhabited

/-- The options object handed to `deploy(name, options)`. -/
structure DeployOptions where
  «from» : Address
  args : List Address
  log : Bool
  waitConfirmations : Option Nat
  deriving DecidableEq, Repr, Inhabited

/-- What `deploy` resolves to (the script discards it). -/
structure DeployResult where
  address : Address
  newlyDeployed : Bool
  deriving DecidableEq, Repr, Inhabited

/-- A contract handle as returned by `ethers.getContract(name, signer)`. -/
structure Contract where
  address : Address
  signer : Address
  deriving DecidableEq, Repr, Inhabited

/-- The overrides object of a contract method call (`value`, `gasLimit`). -/
structure Overrides where
  value : Int
  gasLimit : Nat
  deriving DecidableEq, Repr, Inhabited

/-! ## `ethers.utils.parseEther` -/

/-- Value of a string of decimal digits, `none` when a character is not a digit. -/
def digitsToNat (acc : Nat) : List Char → Option Nat
  | [] => some acc
  | c :: cs =>
    if c.isDigit then digitsToNat (acc * 10 + (c.toNat - 48)) cs else none

/-- Drop the zeros at the end of a fraction. -/
def trimTrailingZeros (cs : List Char) : List Char :=
  (cs.reverse.dropWhile (fun c => c == '0')).reverse

/-- Modelled from the spec: `ethers.utils.parseUnits` is library code outside
this repository; the amounts are "exact integers in 18-decimal base units".
A decimal string `whole.fraction` with at most `decimals` significant fraction
digits denotes `whole * 10^decimals + fraction` (fraction right-padded with
zeros to `decimals` digits); a leading `-` negates; anything else is an error. -/
def parseFixed (value : List Char) (decimals : Nat) : Option Int :=
  let negative := value.head? == some '-'
  let value := if negative then value.drop 1 else value
  if value.isEmpty || !(value.all fun c => c.isDigit || c == '.') then none
  else if value == ['.'] then none
  else
    let whole := value.takeWhile (fun c => c != '.')
    let fraction := (value.dropWhile (fun c => c != '.')).drop 1
    if fraction.contains '.' then none
    else
      let whole := if whole.isEmpty then ['0'] else whole
      let fraction := trimTrailingZeros fraction
      if fraction.length > decimals then none
      else
        match digitsToNat 0 whole,
              digitsToNat 0 (fraction ++ List.replicate (decimals - fraction.length) '0') with
        | some w, some f =>
          let wei : Int := (w * 10 ^ decimals + f : Nat)
          some (if negative then -wei else wei)
        | _, _ => none

/-- The call `ethers.utils.parseEther(ether)`, i.e. `parseUnits(ether, 18)`. -/
def parseEther (ether : String) : Option Int :=
  parseFixed ether.toList 18

/-! ## Operations, responses, trace -/

/-- The operations the script awaits. -/
inductive Op where
  | getNamedAccounts
  | getChainId
  | deploy (name : String) (options : DeployOptions)
  | getContract (name : String) (signer : Address)
  | transfer (c : Contract) (recipient : Address) (amount : Int)
  | approve (c : Contract) (spender : Address) (amount : Int)
  | init (c : Contract) (tokens : Int) (overrides : Overrides)
  deriving DecidableEq, Repr, Inhabited

/-- The value an awaited operation resolved to. -/
inductive Resp where
  | accounts (a : NamedAccounts)
  | chainId (id : String)
  | deployed (r : DeployResult)
  | contract (c : Contract)
  | receipt
  deriving DecidableEq, Repr, Inhabited

/-- What a run leaves behind, in program order. -/
inductive Event where
  | call (op : Op)
  | ret (op : Op) (r : Resp)
  | threw (op : Op) (e : Err)
  | log (msg : String)
  deriving DecidableEq, Repr, Inhabited

/-- The services the script receives from its caller and from `hardhat`. -/
structure Env (σ : Type) where
  getNamedAccounts : σ → Settled NamedAccounts × σ
  getChainId : σ → Settled String × σ
  deploy : String → DeployOptions → σ → Settled DeployResult × σ
  getContract : String → Address → σ → Settled Contract × σ
  transfer : Contract → Address → Int → σ → Settled Unit × σ
  approve : Contract → Address → Int → σ → Settled Unit × σ
  init : Contract → Int → Overrides → σ → Settled Unit × σ

/-- Outcome of running the script. -/
structure Run (σ : Type) where
  result : Settled Unit
  trace : List Event
  final : σ

/-- The statement `const x = await op; k x`: issue `op`, suspend until it settles;
continue with the value, rethrow the error, or stay suspended for ever. -/
def await {σ α : Type} (op : Op) (resp : α → Resp) (f : σ → Settled α × σ)
    (k : α → σ → Run σ) (s : σ) : Run σ :=
  match f s with
  | (Settled.ok a, s') =>
    let r := k a s'
    { r with trace := Event.call op :: Event.ret op (resp a) :: r.trace }
  | (Settled.threw e, s') =>
    { result := Settled.threw e, trace := [Event.call op, Event.threw op e], final := s' }
  | (Settled.pending, s') =>
    { result := Settled.pending, trace := [Event.call op], final := s' }

/-- The statement `console.log(msg); k`. -/
def consoleLog {σ : Type} (msg : String) (k : σ → Run σ) (s : σ) : Run σ :=
  let r := k s
  { r with trace := Event.log msg :: r.trace }

/-- Evaluate `ethers.utils.parseEther(ether)` and continue with its value;
a malformed literal throws before anything is issued. -/
def withEther {σ : Type} (ether : String) (k : Int → σ → Run σ) (s : σ) : Run σ :=
  match parseEther ether with
  | some v => k v s
  | none => { result := Settled.threw "invalid decimal value", trace := [], final := s }

/-- End of the async function body: the promise is fulfilled. -/
def done {σ : Type} (s : σ) : Run σ :=
  { result := Settled.ok (), trace := [], final := s }

/-! ## The script -/

def localChainId : String := "31337"

/-- The async function assigned to `module.exports`, statement by statement. -/
def module.exports {σ : Type} (env : Env σ) : σ → Run σ :=
  await Op.getNamedAccounts Resp.accounts env.getNamedAccounts fun accounts =>
  let deployer := accounts.deployer
  await Op.getChainId Resp.chainId env.getChainId fun _chainId =>
  let balloonsOptions : DeployOptions :=
    { «from» := deployer, args := [], log := true, waitConfirmations := none }
  await (Op.deploy "Balloons" balloonsOptions) Resp.deployed
    (env.deploy "Balloons" balloonsOptions) fun _ =>
  await (Op.getContract "Balloons" deployer) Resp.contract
    (env.getContract "Balloons" deployer) fun balloons =>
  let dexOptions : DeployOptions :=
    { «from» := deployer, args := [balloons.address], log := true,
      waitConfirmations := some 5 }
  await (Op.deploy "DEX" dexOptions) Resp.deployed (env.deploy "DEX" dexOptions) fun _ =>
  await (Op.getContract "DEX" deployer) Resp.contract
    (env.getContract "DEX" deployer) fun dex =>
  withEther "10" fun ten =>
  await (Op.transfer balloons "0x047821Dc2b13F680FeD9B006F0868bE43AcF4fe6" ten)
    (fun _ => Resp.receipt)
    (env.transfer balloons "0x047821Dc2b13F680FeD9B006F0868bE43AcF4fe6" ten) fun _ =>
  consoleLog
    ("Approving DEX (" ++ dex.address ++ ") to take Balloons from main account...") <|
  withEther "100" fun hundred =>
  await (Op.approve balloons dex.address hundred) (fun _ => Resp.receipt)
    (env.approve balloons dex.address hundred) fun _ =>
  consoleLog "INIT exchange..." <|
  withEther "0.5" fun half =>
  withEther "0.5" fun halfValue =>
  let overrides : Overrides := { value := halfValue, gasLimit := 200000 }
  await (Op.init dex half overrides) (fun _ => Resp.receipt)
    (env.init dex half overrides) fun _ =>
  done

/-- The assignment `module.exports.tags = ["Balloons", "DEX"]`. -/
def module.exports.tags : List String := ["Balloons", "DEX"]

/-! ## Expected shape of a run -/

/-- The fixed recipient of the initial transfer. -/
def recipient : Address := "0x047821Dc2b13F680FeD9B006F0868bE43AcF4fe6"

/-- The trace of a run in which every awaited operation succeeds, given the
values the operations resolved to. -/
def successTrace (a : NamedAccounts) (id : String) (r1 : DeployResult) (b : Contract)
    (r2 : DeployResult) (d : Contract) : List Event :=
  [ Event.call Op.getNamedAccounts,
    Event.ret Op.getNamedAccounts (Resp.accounts a),
    Event.call Op.getChainId,
    Event.ret Op.getChainId (Resp.chainId id),
    Event.call (Op.deploy "Balloons" ⟨a.deployer, [], true, none⟩),
    Event.ret (Op.deploy "Balloons" ⟨a.deployer, [], true, none⟩) (Resp.deployed r1),
    Event.call (Op.getContract "Balloons" a.deployer),
    Event.ret (Op.getContract "Balloons" a.deployer) (Resp.contract b),
    Event.call (Op.deploy "DEX" ⟨a.deployer, [b.address], true, some 5⟩),
    Event.ret (Op.deploy "DEX" ⟨a.deployer, [b.address], true, some 5⟩) (Resp.deployed r2),
    Event.call (Op.getContract "DEX" a.deployer),
    Event.ret (Op.getContract "DEX" a.deployer) (Resp.contract d),
    Event.call (Op.transfer b recipient (10 * 10 ^ 18)),
    Event.ret (Op.transfer b recipient (10 * 10 ^ 18)) Resp.receipt,
    Event.log ("Approving DEX (" ++ d.address ++ ") to take Balloons from main account..."),
    Event.call (Op.approve b d.address (100 * 10 ^ 18)),
    Event.ret (Op.approve b d.address (100 * 10 ^ 18)) Resp.receipt,
    Event.log "INIT exchange...",
    Event.call (Op.init d (5 * 10 ^ 17) ⟨5 * 10 ^ 17, 200000⟩),
    Event.ret (Op.init d (5 * 10 ^ 17) ⟨5 * 10 ^ 17, 200000⟩) Resp.receipt ]

/-- The three bootstrap transactions, for the handles `b` (Balloons) and `d` (DEX). -/
def bootstrapCalls (b d : Contract) : List Op :=
  [ Op.transfer b recipient (10 * 10 ^ 18),
    Op.approve b d.address (100 * 10 ^ 18),
    Op.init d (5 * 10 ^ 17) ⟨5 * 10 ^ 17, 200000⟩ ]

/-- The nine awaited operations all resolved, threading the states `s1 … s9`. -/
structure Steps {σ : Type} (env : Env σ) (s : σ) (a : NamedAccounts) (id : String)
    (r1 : DeployResult) (b : Contract) (r2 : DeployResult) (d : Contract)
    (s3 s5 s9 : σ) : Prop where
  accounts : ∃ s1 s2, env.getNamedAccounts s = (Settled.ok a, s1) ∧
    env.getChainId s1 = (Settled.ok id, s2) ∧
    env.deploy "Balloons" ⟨a.deployer, [], true, none⟩ s2 = (Settled.ok r1, s3)
  balloons : ∃ s4, env.getContract "Balloons" a.deployer s3 = (Settled.ok b, s4) ∧
    env.deploy "DEX" ⟨a.deployer, [b.address], true, some 5⟩ s4 = (Settled.ok r2, s5)
  dex : ∃ s6 s7 s8, env.getContract "DEX" a.deployer s5 = (Settled.ok d, s6) ∧
    env.transfer b recipient (10 * 10 ^ 18) s6 = (Settled.ok (), s7) ∧
    env.approve b d.address (100 * 10 ^ 18) s7 = (Settled.ok (), s8) ∧
    env.init d (5 * 10 ^ 17) ⟨5 * 10 ^ 17, 200000⟩ s8 = (Settled.ok (), s9)

/-- Operations that submit a transaction (as opposed to reads of the context). -/
def Op.stateChanging : Op → Bool
  | Op.deploy _ _ => true
  | Op.transfer _ _ _ => true
  | Op.approve _ _ _ => true
  | Op.init _ _ _ => true
  | _ => false

/-- Events that belong to a state-changing operation. -/
def Event.stateChanging : Event → Bool
  | Event.call op => op.stateChanging
  | Event.ret op _ => op.stateChanging
  | Event.threw op _ => op.stateChanging
  | Event.log _ => false

/-- The account an operation acts as: `from` of a deploy, the signer a handle is
requested for, the signer of the handle a method is called on. -/
def Op.account : Op → Option Address
  | Op.deploy _ options => some options.«from»
  | Op.getContract _ signer => some signer
  | Op.transfer c _ _ => some c.signer
  | Op.approve c _ _ => some c.signer
  | Op.init c _ _ => some c.signer
  | _ => none

/-- The bootstrap steps that follow the two deploys. -/
def Op.isBootstrap : Op → Bool
  | Op.transfer _ _ _ => true
  | Op.approve _ _ _ => true
  | Op.init _ _ _ => true
  | _ => false

/-- Deploy transactions. -/
def Op.isDeploy : Op → Bool
  | Op.deploy _ _ => true
  | _ => false

/-- Contract addresses an operation refers to: constructor arguments of a deploy,
the target of a method call, the spender of an approve. -/
def Op.uses : Op → List Address
  | Op.deploy _ options => options.args
  | Op.transfer c _ _ => [c.address]
  | Op.approve c spender _ => [c.address, spender]
  | Op.init c _ _ => [c.address]
  | _ => []

/-- Scan a trace in program order: `known` holds the addresses returned by the
deploys completed so far, and every issued operation may use only those. -/
def refsResolved (known : List Address) : List Event → Prop
  | [] => True
  | Event.call op :: rest => (∀ x ∈ op.uses, x ∈ known) ∧ refsResolved known rest
  | Event.ret (Op.deploy _ _) (Resp.deployed r) :: rest => refsResolved (r.address :: known) rest
  | _ :: rest => refsResolved known rest

/-- The addresses the completed deploys of a trace returned, by contract name. -/
def deployedAddresses : List Event → List (String × Address)
  | [] => []
  | Event.ret (Op.deploy name _) (Resp.deployed r) :: rest =>
    (name, r.address) :: deployedAddresses rest
  | _ :: rest => deployedAddresses rest

/-! ## Two sentences of the specification, as written -/

/-- The confirmation policy as the specification words it: 0 on the local test
network, 5 everywhere else. -/
def specConfirmations (chainId : String) : Nat :=
  if chainId = localChainId then 0 else 5

/-- The number of confirmations a deploy asks for; an absent `waitConfirmations`
counts as the specification's default of 0. -/
def DeployOptions.confirmations (options : DeployOptions) : Nat :=
  options.waitConfirmations.getD 0

/-- The confirmation policy read as a statement about one run: every deploy the
run issues asks for `specConfirmations` of the chain id the run obtained. -/
def FollowsSpecConfirmations (trace : List Event) : Prop :=
  ∀ id name options,
    Event.ret Op.getChainId (Resp.chainId id) ∈ trace →
    Event.call (Op.deploy name options) ∈ trace →
    options.confirmations = specConfirmations id

/-- The timeout rule read as a statement about one run: when the `DEX` deploy was
issued and never returned, the run rejects with `ConfirmationTimeout` and no
bootstrap step was issued. -/
def ReportsConfirmationTimeout {σ : Type} (run : Run σ) : Prop :=
  ∀ options,
    Event.call (Op.deploy "DEX" options) ∈ run.trace →
    (∀ r, Event.ret (Op.deploy "DEX" options) r ∉ run.trace) →
    run.result = Settled.threw "ConfirmationTimeout" ∧
    ∀ op, Event.call op ∈ run.trace → op.isBootstrap = false

/-! ## A network with persisted deployments -/

/-- Modelled from the spec: the state behind the chain client and the persisted
deployment storage of one network ("load(network, name) -> DeploymentRecord |
absent; save(network, name, record)"), together with the transactions that were
submitted to the chain, oldest first. -/
structure Chain where
  deployments : List (String × Address)
  submitted : List Op
  deriving DecidableEq, Repr, Inhabited

/-- Modelled from the spec: what is fixed for a network: the account provider,
the chain identity, which submissions the chain client rejects
("SubmissionFailure"), and the address a newly created contract receives. -/
structure Network where
  accounts : NamedAccounts
  chainId : String
  rejects : Op → Bool
  newAddress : List Op → Address

/-- Modelled from the spec: `load(network, name)`. -/
def Chain.load (c : Chain) (name : String) : Option Address :=
  c.deployments.lookup name

/-- Modelled from the spec: `save(network, name, record)`. -/
def Chain.save (c : Chain) (name : String) (a : Address) : Chain :=
  { c with deployments := (name, a) :: c.deployments }

/-- Modelled from the spec: submitting a transaction; the chain client either
rejects it or includes it. -/
def Network.submit (net : Network) (op : Op) (c : Chain) : Settled Unit × Chain :=
  if net.rejects op then (Settled.threw "SubmissionFailure", c)
  else (Settled.ok (), { c with submitted := c.submitted ++ [op] })

/-- Modelled from the spec: `deploy` of a deployment framework with persisted
storage (§4.1 step 2 and 3): "if the step is a deploy and an existing record for
this (network, name) already exists in persisted deployment storage, skip
execution and reuse the stored address; otherwise submit the deploy", then save
the record. -/
def Network.deploy (net : Network) (name : String) (options : DeployOptions) (c : Chain) :
    Settled DeployResult × Chain :=
  match c.load name with
  | some a => (Settled.ok { address := a, newlyDeployed := false }, c)
  | none =>
    if net.rejects (Op.deploy name options) then (Settled.threw "SubmissionFailure", c)
    else
      let a := net.newAddress c.submitted
      (Settled.ok { address := a, newlyDeployed := true },
        { c.save name a with submitted := c.submitted ++ [Op.deploy name options] })

/-- Modelled from the spec: `getContractHandle(name, signerAccount)`: a proxy for
the recorded deployment of `name`, bound to the signer. -/
def Network.getContract (name : String) (signer : Address) (c : Chain) :
    Settled Contract × Chain :=
  match c.load name with
  | some a => (Settled.ok { address := a, signer := signer }, c)
  | none => (Settled.threw ("No deployment found for: " ++ name), c)

/-- Modelled from the spec: the services of §6 over a `Chain`. -/
def ledgerEnv (net : Network) : Env Chain where
  getNamedAccounts c := (Settled.ok net.accounts, c)
  getChainId c := (Settled.ok net.chainId, c)
  deploy := net.deploy
  getContract := Network.getContract
  transfer b r amount := net.submit (Op.transfer b r amount)
  approve b spender amount := net.submit (Op.approve b spender amount)
  init d tokens overrides := net.submit (Op.init d tokens overrides)

/-! ## Concrete services -/

/-- The in-process test network: chain id `31337`, nothing rejected. -/
def hardhatNetwork : Network where
  accounts := { deployer := "0xf39Fd6e51aad88F6F4ce6aB8827279cffFb92266" }
  chainId := "31337"
  rejects := fun _ => false
  newAddress := fun txs =>
    if txs.isEmpty then "0x5FbDB2315678afecb367f032d93F642f64180aa3"
    else "0xe7f1725E7734CE288F8367e1Bb143E90bb3F0512"

/-- A public network on which the chain client rejects every `approve`. -/
def rejectingNetwork : Network where
  accounts := { deployer := "0xf39Fd6e51aad88F6F4ce6aB8827279cffFb92266" }
  chainId := "1"
  rejects := fun op => match op with
    | Op.approve _ _ _ => true
    | _ => false
  newAddress := fun txs =>
    if txs.isEmpty then "0x5FbDB2315678afecb367f032d93F642f64180aa3"
    else "0xe7f1725E7734CE288F8367e1Bb143E90bb3F0512"

/-- A network with nothing deployed and nothing submitted yet. -/
def emptyChain : Chain := { deployments := [], submitted := [] }

/-- Services in which everything succeeds except that the `DEX` deploy never
settles (its confirmation wait does not end). -/
def stuckEnv : Env Unit where
  getNamedAccounts s := (Settled.ok { deployer := "0xf39Fd6e51aad88F6F4ce6aB8827279cffFb92266" }, s)
  getChainId s := (Settled.ok "1", s)
  deploy name _ s :=
    if name = "DEX" then (Settled.pending, s)
    else (Settled.ok { address := "0x5FbDB2315678afecb367f032d93F642f64180aa3",
                       newlyDeployed := true }, s)
  getContract _ signer s :=
    (Settled.ok { address := "0x5FbDB2315678afecb367f032d93F642f64180aa3", signer := signer }, s)
  transfer _ _ _ s := (Settled.ok (), s)
  approve _ _ _ s := (Settled.ok (), s)
  init _ _ _ s := (Settled.ok (), s)

/-! ## Literals of the script -/

theorem parseEther_ten : parseEther "10" = some (10 * 10 ^ 18) := by
  decide

theorem parseEther_hundred : parseEther "100" = some (100 * 10 ^ 18) := by
  decide

theorem parseEther_half : parseEther "0.5" = some (5 * 10 ^ 17) := by
  decide

/-! ## Fulfilled runs -/

/-- A fulfilled run has exactly the success trace. -/
theorem trace_of_ok {σ : Type} (env : Env σ) (s : σ)
    (h : (module.exports env s).result = Settled.ok ()) :
    ∃ a id r1 b r2 d, (module.exports env s).trace = successTrace a id r1 b r2 d := by
  unfold module.exports at h ⊢
  simp only [await, consoleLog, withEther, done, parseEther_ten, parseEther_hundred,
    parseEther_half] at h ⊢
  repeat' split at h
  all_goals simp_all [successTrace, recipient]

/-- A fulfilled run went through all nine steps. -/
theorem steps_of_ok {σ : Type} (env : Env σ) (s : σ)
    (h : (module.exports env s).result = Settled.ok ()) :
    ∃ a id r1 b r2 d s3 s5 s9, Steps env s a id r1 b r2 d s3 s5 s9 ∧
      (module.exports env s).trace = successTrace a id r1 b r2 d ∧
      (module.exports env s).final = s9 := by
  unfold module.exports at h ⊢
  simp only [await, consoleLog, withEther, done, parseEther_ten, parseEther_hundred,
    parseEther_half] at h ⊢
  repeat' split at h
  all_goals simp only [reduceCtorEq] at h
  rename_i x1 a s1 h1 x2 id s2 h2 x3 r1 s3 h3 x4 b s4 h4 x5 r2 s5 h5 x6 d s6 h6 x7 u7 s7 h7
    x8 u8 s8 h8 x9 u9 s9 h9
  refine ⟨a, id, r1, b, r2, d, s3, s5, s9, ⟨⟨s1, s2, h1, h2, h3⟩, ⟨s4, h4, h5⟩,
    ⟨s6, s7, s8, h6, h7, h8, h9⟩⟩, ?_, ?_⟩
  · simp only [h1, h2, h3, h4, h5, h6, h7, h8, h9]
    rfl
  · simp only [h1, h2, h3, h4, h5, h6, h7, h8, h9]

/-- Nine resolved steps make a fulfilled run. -/
theorem run_of_steps {σ : Type} (env : Env σ) (s : σ) (a : NamedAccounts) (id : String)
    (r1 : DeployResult) (b : Contract) (r2 : DeployResult) (d : Contract) (s3 s5 s9 : σ)
    (h : Steps env s a id r1 b r2 d s3 s5 s9) :
    module.exports env s =
      { result := Settled.ok (), trace := successTrace a id r1 b r2 d, final := s9 } := by
  obtain ⟨⟨s1, s2, h1, h2, h3⟩, ⟨s4, h4, h5⟩, ⟨s6, s7, s8, h6, h7, h8, h9⟩⟩ := h
  simp only [recipient] at h7
  unfold module.exports
  simp only [await, consoleLog, withEther, done, parseEther_ten, parseEther_hundred,
    parseEther_half, h1, h2, h3, h4, h5, h6, h7, h8, h9]
  rfl

/-! ## Facts about the network with persisted deployments -/

theorem load_eta (c : Chain) (txs : List Op) (name : String) :
    Chain.load { deployments := c.deployments, submitted := txs } name = c.load name := rfl

theorem load_cons_same (name : String) (a : Address) (ds : List (String × Address))
    (txs : List Op) :
    Chain.load { deployments := (name, a) :: ds, submitted := txs } name = some a := by
  simp [Chain.load, List.lookup]

theorem load_cons_other (name other : String) (a : Address) (ds : List (String × Address))
    (txs : List Op) (h : name ≠ other) :
    Chain.load { deployments := (other, a) :: ds, submitted := txs } name =
      Chain.load { deployments := ds, submitted := txs } name := by
  have hne : (name == other) = false := by simpa using h
  simp [Chain.load, List.lookup, hne]

theorem deploy_stored (net : Network) (name : String) (o : DeployOptions) (c : Chain)
    (a : Address) (h : c.load name = some a) :
    (ledgerEnv net).deploy name o c = (Settled.ok ⟨a, false⟩, c) := by
  simp [ledgerEnv, Network.deploy, h]

theorem deploy_ok (net : Network) (name : String) (o : DeployOptions) (c c' : Chain)
    (r : DeployResult) (h : (ledgerEnv net).deploy name o c = (Settled.ok r, c')) :
    c'.load name = some r.address ∧ (∀ m, m ≠ name → c'.load m = c.load m) ∧
    ((c' = c ∧ r.newlyDeployed = false) ∨
      (c.load name = none ∧ c'.submitted = c.submitted ++ [Op.deploy name o])) := by
  simp only [ledgerEnv, Network.deploy] at h
  cases hl : c.load name with
  | some a =>
    simp only [hl, Prod.mk.injEq, Settled.ok.injEq] at h
    obtain ⟨rfl, rfl⟩ := h
    exact ⟨hl, fun _ _ => rfl, Or.inl ⟨rfl, rfl⟩⟩
  | none =>
    simp only [hl] at h
    split_ifs at h with hr
    · simp only [Prod.mk.injEq, reduceCtorEq, false_and] at h
    · simp only [Prod.mk.injEq, Settled.ok.injEq] at h
      obtain ⟨rfl, rfl⟩ := h
      refine ⟨load_cons_same _ _ _ _, fun m hm => ?_, Or.inr ⟨rfl, rfl⟩⟩
      simp only [Chain.save]
      rw [load_cons_other _ _ _ _ _ hm, load_eta]

theorem getContract_stored (net : Network) (name : String) (signer : Address) (c : Chain)
    (a : Address) (h : c.load name = some a) :
    (ledgerEnv net).getContract name signer c = (Settled.ok ⟨a, signer⟩, c) := by
  simp [ledgerEnv, Network.getContract, h]

theorem getContract_ok (net : Network) (name : String) (signer : Address) (c c' : Chain)
    (x : Contract) (h : (ledgerEnv net).getContract name signer c = (Settled.ok x, c')) :
    c' = c ∧ c.load name = some x.address ∧ x.signer = signer := by
  simp only [ledgerEnv, Network.getContract] at h
  cases hl : c.load name with
  | some a =>
    simp only [hl, Prod.mk.injEq, Settled.ok.injEq] at h
    obtain ⟨rfl, rfl⟩ := h
    exact ⟨rfl, rfl, rfl⟩
  | none => simp [hl] at h

theorem submit_accepted (net : Network) (op : Op) (c : Chain) (h : net.rejects op = false) :
    net.submit op c = (Settled.ok (), ⟨c.deployments, c.submitted ++ [op]⟩) := by
  simp [Network.submit, h]

theorem submit_ok (net : Network) (op : Op) (c c' : Chain) (u : Unit)
    (h : net.submit op c = (Settled.ok u, c')) :
    net.rejects op = false ∧ c' = ⟨c.deployments, c.submitted ++ [op]⟩ := by
  simp only [Network.submit] at h
  split_ifs at h with hr
  · simp only [Prod.mk.injEq, reduceCtorEq, false_and] at h
  · simp only [Prod.mk.injEq] at h
    exact ⟨by simpa using hr, h.2.symm⟩

/-- A handle requested right after a deploy points at the address the deploy returned. -/
theorem ledger_coherent (net : Network) (name : String) (o : DeployOptions) (signer : Address)
    (c c1 c2 : Chain) (r : DeployResult) (x : Contract)
    (hd : (ledgerEnv net).deploy name o c = (Settled.ok r, c1))
    (hg : (ledgerEnv net).getContract name signer c1 = (Settled.ok x, c2)) :
    x.address = r.address := by
  have h1 := (deploy_ok net name o c c1 r hd).1
  have h2 := (getContract_ok net name signer c1 c2 x hg).2.1
  rw [h1] at h2
  exact (Option.some.inj h2).symm

/-- A fulfilled run on the network with persisted deployments, and the run that
follows it on the state it left behind. -/
theorem ledger_rerun (net : Network) (c : Chain)
    (h : (module.exports (ledgerEnv net) c).result = Settled.ok ()) :
    ∃ r1 b r2 d deploys,
      r1.address = b.address ∧ r2.address = d.address ∧
      (module.exports (ledgerEnv net) c).trace =
        successTrace net.accounts net.chainId r1 b r2 d ∧
      (∀ op ∈ deploys, op.isDeploy = true) ∧
      (module.exports (ledgerEnv net) c).final.submitted =
        c.submitted ++ deploys ++ bootstrapCalls b d ∧
      module.exports (ledgerEnv net) (module.exports (ledgerEnv net) c).final =
        { result := Settled.ok (),
          trace := successTrace net.accounts net.chainId ⟨b.address, false⟩ b
            ⟨d.address, false⟩ d,
          final :=
            { deployments := (module.exports (ledgerEnv net) c).final.deployments,
              submitted := (module.exports (ledgerEnv net) c).final.submitted ++
                bootstrapCalls b d } } := by
  obtain ⟨a, id, r1, b, r2, d, s3, s5, s9, hsteps, htrace, hfinal⟩ := steps_of_ok _ _ h
  obtain ⟨⟨s1, s2, h1, h2, h3⟩, ⟨s4, h4, h5⟩, ⟨s6, s7, s8, h6, h7, h8, h9⟩⟩ := hsteps
  have ha : a = net.accounts ∧ c = s1 := by
    simp only [ledgerEnv, Prod.mk.injEq, Settled.ok.injEq] at h1
    exact ⟨h1.1.symm, h1.2⟩
  obtain ⟨rfl, rfl⟩ := ha
  have hid : id = net.chainId ∧ c = s2 := by
    simp only [ledgerEnv, Prod.mk.injEq, Settled.ok.injEq] at h2
    exact ⟨h2.1.symm, h2.2⟩
  obtain ⟨rfl, rfl⟩ := hid
  obtain ⟨hB3, -, hsub3⟩ := deploy_ok net _ _ _ _ _ h3
  obtain ⟨rfl, hBb, hbs⟩ := getContract_ok net _ _ _ _ _ h4
  obtain ⟨hD5, hpres5, hsub5⟩ := deploy_ok net _ _ _ _ _ h5
  obtain ⟨rfl, hDd, hds⟩ := getContract_ok net _ _ _ _ _ h6
  obtain ⟨hr7, rfl⟩ := submit_ok net _ _ _ _ h7
  obtain ⟨hr8, rfl⟩ := submit_ok net _ _ _ _ h8
  obtain ⟨hr9, rfl⟩ := submit_ok net _ _ _ _ h9
  have e1 : r1.address = b.address := by
    rw [hB3] at hBb
    exact Option.some.inj hBb
  have e2 : r2.address = d.address := by
    rw [hD5] at hDd
    exact Option.some.inj hDd
  have hB5 : s6.load "Balloons" = some b.address := by
    rw [hpres5 "Balloons" (by decide)]
    exact hBb
  have hb : (⟨b.address, net.accounts.deployer⟩ : Contract) = b := by
    cases b
    simp only [Contract.mk.injEq, true_and]
    exact hbs.symm
  have hd : (⟨d.address, net.accounts.deployer⟩ : Contract) = d := by
    cases d
    simp only [Contract.mk.injEq, true_and]
    exact hds.symm
  have hsubmitted : ∃ deploys, (∀ op ∈ deploys, op.isDeploy = true) ∧
      s6.submitted = c.submitted ++ deploys := by
    rcases hsub3 with ⟨h3', -⟩ | ⟨-, h3'⟩ <;> rcases hsub5 with ⟨h5', -⟩ | ⟨-, h5'⟩
    · exact ⟨[], by simp, by rw [h5', h3']; simp⟩
    · refine ⟨[Op.deploy "DEX" ⟨net.accounts.deployer, [b.address], true, some 5⟩],
        by simp [Op.isDeploy], ?_⟩
      rw [h5', h3']
    · refine ⟨[Op.deploy "Balloons" ⟨net.accounts.deployer, [], true, none⟩],
        by simp [Op.isDeploy], ?_⟩
      rw [h5', h3']
    · refine ⟨[Op.deploy "Balloons" ⟨net.accounts.deployer, [], true, none⟩,
        Op.deploy "DEX" ⟨net.accounts.deployer, [b.address], true, some 5⟩],
        by simp [Op.isDeploy], ?_⟩
      rw [h5', h3']
      simp
  obtain ⟨deploys, hdeploys, hsub6⟩ := hsubmitted
  have hfd : (module.exports (ledgerEnv net) c).final.deployments = s6.deployments := by
    rw [hfinal]
  have hfs : (module.exports (ledgerEnv net) c).final.submitted =
      s6.submitted ++ bootstrapCalls b d := by
    rw [hfinal]
    simp [bootstrapCalls]
  refine ⟨r1, b, r2, d, deploys, e1, e2, htrace, hdeploys, ?_, ?_⟩
  · rw [hfs, hsub6]
  · generalize (module.exports (ledgerEnv net) c).final = F at hfd hfs
    have hFB : F.load "Balloons" = some b.address := by
      show F.deployments.lookup "Balloons" = some b.address
      rw [hfd]
      exact hB5
    have hFD : F.load "DEX" = some d.address := by
      show F.deployments.lookup "DEX" = some d.address
      rw [hfd]
      exact hDd
    have k3 := deploy_stored net "Balloons" ⟨net.accounts.deployer, [], true, none⟩ F _ hFB
    have k4 : (ledgerEnv net).getContract "Balloons" net.accounts.deployer F =
        (Settled.ok b, F) := by
      rw [getContract_stored net _ _ _ _ hFB, hb]
    have k5 := deploy_stored net "DEX" ⟨net.accounts.deployer, [b.address], true, some 5⟩
      F _ hFD
    have k6 : (ledgerEnv net).getContract "DEX" net.accounts.deployer F =
        (Settled.ok d, F) := by
      rw [getContract_stored net _ _ _ _ hFD, hd]
    have k7 : (ledgerEnv net).transfer b recipient (10 * 10 ^ 18) F = _ :=
      submit_accepted net _ F hr7
    have k8 : (ledgerEnv net).approve b d.address (100 * 10 ^ 18) _ = _ :=
      submit_accepted net _ ⟨F.deployments, F.submitted ++ [Op.transfer b recipient (10 * 10 ^ 18)]⟩ hr8
    have k9 : (ledgerEnv net).init d (5 * 10 ^ 17) ⟨5 * 10 ^ 17, 200000⟩ _ = _ :=
      submit_accepted net _
        ⟨F.deployments, (F.submitted ++ [Op.transfer b recipient (10 * 10 ^ 18)]) ++
          [Op.approve b d.address (100 * 10 ^ 18)]⟩ hr9
    rw [run_of_steps (ledgerEnv net) F net.accounts net.chainId ⟨b.address, false⟩ b
      ⟨d.address, false⟩ d F F _ ⟨⟨F, F, rfl, rfl, k3⟩, ⟨F, k4, k5⟩, ⟨F, _, _, k6, k7, k8, k9⟩⟩]
    simp [bootstrapCalls]

/-! ## The claims

The concrete runs used below: `ledgerEnv hardhatNetwork` from `emptyChain` is
fulfilled (Balloons at `0x5FbD…`, DEX at `0xe7f1…`); `ledgerEnv rejectingNetwork`
rejects the `approve`; `stuckEnv` never settles the `DEX` deploy. -/

/-- C1: in a run in which every awaited operation succeeds, the state-changing
operations the script issues are exactly deploy `Balloons` (args `[]`), deploy
`DEX`, `Balloons.transfer`, `Balloons.approve`, `DEX.init`, in this order, and
each is issued only after the previous one has returned (call and return events
alternate). The handles `b`, `d` are the ones `getContract` returned. -/
theorem five_steps_in_order {σ : Type} (env : Env σ) (s : σ)
    (h : (module.exports env s).result = Settled.ok ()) :
    ∃ a r1 b r2 d,
      Event.ret Op.getNamedAccounts (Resp.accounts a) ∈ (module.exports env s).trace ∧
      Event.ret (Op.getContract "Balloons" a.deployer) (Resp.contract b) ∈
        (module.exports env s).trace ∧
      Event.ret (Op.getContract "DEX" a.deployer) (Resp.contract d) ∈
        (module.exports env s).trace ∧
      (module.exports env s).trace.filter Event.stateChanging =
        [ Event.call (Op.deploy "Balloons" ⟨a.deployer, [], true, none⟩),
          Event.ret (Op.deploy "Balloons" ⟨a.deployer, [], true, none⟩) (Resp.deployed r1),
          Event.call (Op.deploy "DEX" ⟨a.deployer, [b.address], true, some 5⟩),
          Event.ret (Op.deploy "DEX" ⟨a.deployer, [b.address], true, some 5⟩)
            (Resp.deployed r2),
          Event.call (Op.transfer b recipient (10 * 10 ^ 18)),
          Event.ret (Op.transfer b recipient (10 * 10 ^ 18)) Resp.receipt,
          Event.call (Op.approve b d.address (100 * 10 ^ 18)),
          Event.ret (Op.approve b d.address (100 * 10 ^ 18)) Resp.receipt,
          Event.call (Op.init d (5 * 10 ^ 17) ⟨5 * 10 ^ 17, 200000⟩),
          Event.ret (Op.init d (5 * 10 ^ 17) ⟨5 * 10 ^ 17, 200000⟩) Resp.receipt ] := by
  obtain ⟨a, id, r1, b, r2, d, htr⟩ := trace_of_ok env s h
  rw [htr]
  refine ⟨a, r1, b, r2, d, ?_, ?_, ?_, ?_⟩
  · simp [successTrace]
  · simp [successTrace]
  · simp [successTrace]
  · rfl

/-- Witness for C1 on the in-process test network. -/
theorem five_steps_in_order_witness :
    (module.exports (ledgerEnv hardhatNetwork) emptyChain).result = Settled.ok () ∧
    ∃ a r1 b r2 d,
      Event.ret Op.getNamedAccounts (Resp.accounts a) ∈
        (module.exports (ledgerEnv hardhatNetwork) emptyChain).trace ∧
      Event.ret (Op.getContract "Balloons" a.deployer) (Resp.contract b) ∈
        (module.exports (ledgerEnv hardhatNetwork) emptyChain).trace ∧
      Event.ret (Op.getContract "DEX" a.deployer) (Resp.contract d) ∈
        (module.exports (ledgerEnv hardhatNetwork) emptyChain).trace ∧
      (module.exports (ledgerEnv hardhatNetwork) emptyChain).trace.filter Event.stateChanging =
        [ Event.call (Op.deploy "Balloons" ⟨a.deployer, [], true, none⟩),
          Event.ret (Op.deploy "Balloons" ⟨a.deployer, [], true, none⟩) (Resp.deployed r1),
          Event.call (Op.deploy "DEX" ⟨a.deployer, [b.address], true, some 5⟩),
          Event.ret (Op.deploy "DEX" ⟨a.deployer, [b.address], true, some 5⟩)
            (Resp.deployed r2),
          Event.call (Op.transfer b recipient (10 * 10 ^ 18)),
          Event.ret (Op.transfer b recipient (10 * 10 ^ 18)) Resp.receipt,
          Event.call (Op.approve b d.address (100 * 10 ^ 18)),
          Event.ret (Op.approve b d.address (100 * 10 ^ 18)) Resp.receipt,
          Event.call (Op.init d (5 * 10 ^ 17) ⟨5 * 10 ^ 17, 200000⟩),
          Event.ret (Op.init d (5 * 10 ^ 17) ⟨5 * 10 ^ 17, 200000⟩) Resp.receipt ] :=
  ⟨by decide, five_steps_in_order (ledgerEnv hardhatNetwork) emptyChain (by decide)⟩

/-- C2: in a fulfilled run the `DEX` deploy is issued right after
`getContract("Balloons", deployer)` returned the handle `b`, which follows the
`Balloons` deploy, and its constructor argument list is `[b.address]`; no `DEX`
deploy with other arguments is issued. -/
theorem dex_constructor_argument {σ : Type} (env : Env σ) (s : σ)
    (h : (module.exports env s).result = Settled.ok ()) :
    ∃ a id r1 b rest,
      (module.exports env s).trace =
        [ Event.call Op.getNamedAccounts,
          Event.ret Op.getNamedAccounts (Resp.accounts a),
          Event.call Op.getChainId,
          Event.ret Op.getChainId (Resp.chainId id),
          Event.call (Op.deploy "Balloons" ⟨a.deployer, [], true, none⟩),
          Event.ret (Op.deploy "Balloons" ⟨a.deployer, [], true, none⟩) (Resp.deployed r1),
          Event.call (Op.getContract "Balloons" a.deployer),
          Event.ret (Op.getContract "Balloons" a.deployer) (Resp.contract b),
          Event.call (Op.deploy "DEX" ⟨a.deployer, [b.address], true, some 5⟩) ] ++ rest ∧
      ∀ options, Event.call (Op.deploy "DEX" options) ∈ (module.exports env s).trace →
        options.args = [b.address] := by
  obtain ⟨a, id, r1, b, r2, d, htr⟩ := trace_of_ok env s h
  rw [htr]
  refine ⟨a, id, r1, b, _, rfl, ?_⟩
  intro options hmem
  simp [successTrace] at hmem
  rw [hmem]

/-- Witness for C2 on the in-process test network. -/
theorem dex_constructor_argument_witness :
    (module.exports (ledgerEnv hardhatNetwork) emptyChain).result = Settled.ok () ∧
    ∃ a id r1 b rest,
      (module.exports (ledgerEnv hardhatNetwork) emptyChain).trace =
        [ Event.call Op.getNamedAccounts,
          Event.ret Op.getNamedAccounts (Resp.accounts a),
          Event.call Op.getChainId,
          Event.ret Op.getChainId (Resp.chainId id),
          Event.call (Op.deploy "Balloons" ⟨a.deployer, [], true, none⟩),
          Event.ret (Op.deploy "Balloons" ⟨a.deployer, [], true, none⟩) (Resp.deployed r1),
          Event.call (Op.getContract "Balloons" a.deployer),
          Event.ret (Op.getContract "Balloons" a.deployer) (Resp.contract b),
          Event.call (Op.deploy "DEX" ⟨a.deployer, [b.address], true, some 5⟩) ] ++ rest ∧
      ∀ options,
        Event.call (Op.deploy "DEX" options) ∈
          (module.exports (ledgerEnv hardhatNetwork) emptyChain).trace →
        options.args = [b.address] :=
  ⟨by decide, dex_constructor_argument (ledgerEnv hardhatNetwork) emptyChain (by decide)⟩

/-- C3: halt on first failure. If an awaited operation `op` throws `e`, the run
rejects with `e`, the throw is the last event of the trace (nothing is issued
afterwards), and the trace before it is a prefix of the success trace that ends
with the call of `op`. -/
theorem halt_on_first_failure {σ : Type} (env : Env σ) (s : σ) (op : Op) (e : Err)
    (h : Event.threw op e ∈ (module.exports env s).trace) :
    (module.exports env s).result = Settled.threw e ∧
    (module.exports env s).trace.getLast? = some (Event.threw op e) ∧
    (module.exports env s).trace.dropLast.getLast? = some (Event.call op) ∧
    ∃ a id r1 b r2 d,
      (module.exports env s).trace.dropLast <+: successTrace a id r1 b r2 d := by
  unfold module.exports at h ⊢
  simp only [await, consoleLog, withEther, done, parseEther_ten, parseEther_hundred,
    parseEther_half] at h ⊢
  repeat' split at h
  all_goals simp_all [successTrace, recipient]

/-- Witness for C3: the chain client rejects the `approve`. -/
theorem halt_on_first_failure_witness :
    Event.threw
        (Op.approve ⟨"0x5FbDB2315678afecb367f032d93F642f64180aa3",
            "0xf39Fd6e51aad88F6F4ce6aB8827279cffFb92266"⟩
          "0xe7f1725E7734CE288F8367e1Bb143E90bb3F0512" (100 * 10 ^ 18))
        "SubmissionFailure" ∈
      (module.exports (ledgerEnv rejectingNetwork) emptyChain).trace ∧
    ((module.exports (ledgerEnv rejectingNetwork) emptyChain).result =
        Settled.threw "SubmissionFailure" ∧
      (module.exports (ledgerEnv rejectingNetwork) emptyChain).trace.getLast? =
        some (Event.threw
          (Op.approve ⟨"0x5FbDB2315678afecb367f032d93F642f64180aa3",
              "0xf39Fd6e51aad88F6F4ce6aB8827279cffFb92266"⟩
            "0xe7f1725E7734CE288F8367e1Bb143E90bb3F0512" (100 * 10 ^ 18))
          "SubmissionFailure") ∧
      (module.exports (ledgerEnv rejectingNetwork) emptyChain).trace.dropLast.getLast? =
        some (Event.call
          (Op.approve ⟨"0x5FbDB2315678afecb367f032d93F642f64180aa3",
              "0xf39Fd6e51aad88F6F4ce6aB8827279cffFb92266"⟩
            "0xe7f1725E7734CE288F8367e1Bb143E90bb3F0512" (100 * 10 ^ 18))) ∧
      ∃ a id r1 b r2 d,
        (module.exports (ledgerEnv rejectingNetwork) emptyChain).trace.dropLast <+:
          successTrace a id r1 b r2 d) :=
  ⟨by decide,
    halt_on_first_failure (ledgerEnv rejectingNetwork) emptyChain _ _ (by decide)⟩

/-- C4 as stated fails: on the local test network (chain id `31337`) the script
still asks for 5 confirmations for the `DEX` deploy, not 0. -/
theorem local_chain_breaks_spec_confirmations :
    ¬ FollowsSpecConfirmations (module.exports (ledgerEnv hardhatNetwork) emptyChain).trace := by
  intro hclaim
  have h := hclaim "31337" "DEX"
    ⟨"0xf39Fd6e51aad88F6F4ce6aB8827279cffFb92266",
      ["0x5FbDB2315678afecb367f032d93F642f64180aa3"], true, some 5⟩
    (by decide) (by decide)
  revert h
  decide

/-- C4 amended: the chain id does not enter the confirmation policy. Whatever
`getChainId` returns, every deploy the script issues is either the `Balloons`
deploy with no `waitConfirmations`, or the `DEX` deploy with
`waitConfirmations: 5`. -/
theorem confirmations_ignore_chain_id {σ : Type} (env : Env σ) (s : σ) (name : String)
    (options : DeployOptions)
    (h : Event.call (Op.deploy name options) ∈ (module.exports env s).trace) :
    (name = "Balloons" ∧ options.waitConfirmations = none) ∨
    (name = "DEX" ∧ options.waitConfirmations = some 5) := by
  unfold module.exports at h
  simp only [await, consoleLog, withEther, done, parseEther_ten, parseEther_hundred,
    parseEther_half] at h
  repeat' split at h
  all_goals simp at h
  all_goals aesop

/-- Witness for the amended C4 on the local test network. -/
theorem confirmations_ignore_chain_id_witness :
    Event.call (Op.deploy "DEX"
        ⟨"0xf39Fd6e51aad88F6F4ce6aB8827279cffFb92266",
          ["0x5FbDB2315678afecb367f032d93F642f64180aa3"], true, some 5⟩) ∈
      (module.exports (ledgerEnv hardhatNetwork) emptyChain).trace ∧
    (("DEX" = "Balloons" ∧ (some 5 : Option Nat) = none) ∨
      ("DEX" = "DEX" ∧ (some 5 : Option Nat) = some 5)) :=
  ⟨by decide,
    confirmations_ignore_chain_id (ledgerEnv hardhatNetwork) emptyChain "DEX"
      ⟨"0xf39Fd6e51aad88F6F4ce6aB8827279cffFb92266",
        ["0x5FbDB2315678afecb367f032d93F642f64180aa3"], true, some 5⟩ (by decide)⟩

/-- C5: idempotent deploys. On a network with persisted deployments, after a
fulfilled run a second run on the state it left behind is fulfilled, its deploys
return the same addresses for `Balloons` and `DEX`, the persisted deployments are
unchanged, neither deploy is newly deployed, and none of the transactions the
second run submits is a deploy. -/
theorem second_run_reuses_deployments (net : Network) (c : Chain)
    (h : (module.exports (ledgerEnv net) c).result = Settled.ok ()) :
    (module.exports (ledgerEnv net) (module.exports (ledgerEnv net) c).final).result =
      Settled.ok () ∧
    deployedAddresses
        (module.exports (ledgerEnv net) (module.exports (ledgerEnv net) c).final).trace =
      deployedAddresses (module.exports (ledgerEnv net) c).trace ∧
    (module.exports (ledgerEnv net) (module.exports (ledgerEnv net) c).final).final.deployments =
      (module.exports (ledgerEnv net) c).final.deployments ∧
    (∀ name options r,
      Event.ret (Op.deploy name options) (Resp.deployed r) ∈
        (module.exports (ledgerEnv net) (module.exports (ledgerEnv net) c).final).trace →
      r.newlyDeployed = false) ∧
    ∃ txs,
      (module.exports (ledgerEnv net) (module.exports (ledgerEnv net) c).final).final.submitted =
        (module.exports (ledgerEnv net) c).final.submitted ++ txs ∧
      ∀ op ∈ txs, op.isDeploy = false := by
  obtain ⟨r1, b, r2, d, deploys, e1, e2, htrace, -, -, hrun⟩ := ledger_rerun net c h
  rw [hrun, htrace]
  refine ⟨rfl, ?_, rfl, ?_, bootstrapCalls b d, rfl, ?_⟩
  · simp [successTrace, deployedAddresses, e1, e2]
  · intro name options r hmem
    simp only [successTrace, List.mem_cons, List.mem_singleton, Event.ret.injEq,
      reduceCtorEq, false_and, false_or, or_false, Resp.deployed.injEq, List.not_mem_nil] at hmem
    rcases hmem with ⟨-, rfl⟩ | ⟨-, rfl⟩ <;> rfl
  · simp [bootstrapCalls, Op.isDeploy]

/-- Witness for C5 on the in-process test network. -/
theorem second_run_reuses_deployments_witness :
    (module.exports (ledgerEnv hardhatNetwork) emptyChain).result = Settled.ok () ∧
    ((module.exports (ledgerEnv hardhatNetwork)
        (module.exports (ledgerEnv hardhatNetwork) emptyChain).final).result = Settled.ok () ∧
      deployedAddresses
          (module.exports (ledgerEnv hardhatNetwork)
            (module.exports (ledgerEnv hardhatNetwork) emptyChain).final).trace =
        deployedAddresses (module.exports (ledgerEnv hardhatNetwork) emptyChain).trace ∧
      (module.exports (ledgerEnv hardhatNetwork)
          (module.exports (ledgerEnv hardhatNetwork) emptyChain).final).final.deployments =
        (module.exports (ledgerEnv hardhatNetwork) emptyChain).final.deployments ∧
      (∀ name options r,
        Event.ret (Op.deploy name options) (Resp.deployed r) ∈
          (module.exports (ledgerEnv hardhatNetwork)
            (module.exports (ledgerEnv hardhatNetwork) emptyChain).final).trace →
        r.newlyDeployed = false) ∧
      ∃ txs,
        (module.exports (ledgerEnv hardhatNetwork)
            (module.exports (ledgerEnv hardhatNetwork) emptyChain).final).final.submitted =
          (module.exports (ledgerEnv hardhatNetwork) emptyChain).final.submitted ++ txs ∧
        ∀ op ∈ txs, op.isDeploy = false) :=
  ⟨by decide, second_run_reuses_deployments hardhatNetwork emptyChain (by decide)⟩

/-- C6: no forward references. Provided a handle requested right after a deploy
points at the address that deploy returned, every contract address an issued
operation uses (constructor argument of `DEX`, spender of `approve`, targets of
`transfer`, `approve`, `init`) was returned by a deploy that completed earlier
in the same run; in particular the spender of `approve` and the target of `init`
are the address the `DEX` deploy returned. -/
theorem no_forward_references {σ : Type} (env : Env σ) (s : σ)
    (hcoh : ∀ name options signer st r st1 x st2,
      env.deploy name options st = (Settled.ok r, st1) →
      env.getContract name signer st1 = (Settled.ok x, st2) → x.address = r.address) :
    refsResolved [] (module.exports env s).trace ∧
    (∀ b spender amount, Event.call (Op.approve b spender amount) ∈ (module.exports env s).trace →
      ∃ options r, Event.ret (Op.deploy "DEX" options) (Resp.deployed r) ∈
        (module.exports env s).trace ∧ spender = r.address) ∧
    (∀ d tokens overrides,
      Event.call (Op.init d tokens overrides) ∈ (module.exports env s).trace →
      ∃ options r, Event.ret (Op.deploy "DEX" options) (Resp.deployed r) ∈
        (module.exports env s).trace ∧ d.address = r.address) := by
  unfold module.exports
  simp only [await, consoleLog, withEther, done, parseEther_ten, parseEther_hundred,
    parseEther_half]
  repeat' split
  all_goals
    try have hb := hcoh _ _ _ _ _ _ _ _ (by
      assumption : env.deploy "Balloons" _ _ = (Settled.ok _, _)) (by
      assumption : env.getContract "Balloons" _ _ = (Settled.ok _, _))
  all_goals
    try have hd := hcoh _ _ _ _ _ _ _ _ (by
      assumption : env.deploy "DEX" _ _ = (Settled.ok _, _)) (by
      assumption : env.getContract "DEX" _ _ = (Settled.ok _, _))
  all_goals simp_all [refsResolved, Op.uses]
  all_goals first
    | (refine ⟨?_, ?_⟩ <;> intros <;> exact ⟨_, _, ⟨rfl, rfl⟩, rfl⟩)
    | (intros; exact ⟨_, _, ⟨rfl, rfl⟩, rfl⟩)

/-- Witness for C6: the network with persisted deployments is coherent. -/
theorem no_forward_references_witness :
    (∀ name options signer st r st1 x st2,
      (ledgerEnv hardhatNetwork).deploy name options st = (Settled.ok r, st1) →
      (ledgerEnv hardhatNetwork).getContract name signer st1 = (Settled.ok x, st2) →
      x.address = r.address) ∧
    (refsResolved [] (module.exports (ledgerEnv hardhatNetwork) emptyChain).trace ∧
      (∀ b spender amount,
        Event.call (Op.approve b spender amount) ∈
          (module.exports (ledgerEnv hardhatNetwork) emptyChain).trace →
        ∃ options r, Event.ret (Op.deploy "DEX" options) (Resp.deployed r) ∈
          (module.exports (ledgerEnv hardhatNetwork) emptyChain).trace ∧
          spender = r.address) ∧
      (∀ d tokens overrides,
        Event.call (Op.init d tokens overrides) ∈
          (module.exports (ledgerEnv hardhatNetwork) emptyChain).trace →
        ∃ options r, Event.ret (Op.deploy "DEX" options) (Resp.deployed r) ∈
          (module.exports (ledgerEnv hardhatNetwork) emptyChain).trace ∧
          d.address = r.address)) :=
  ⟨fun name options signer st r st1 x st2 hd hg =>
      ledger_coherent hardhatNetwork name options signer st st1 st2 r x hd hg,
    no_forward_references (ledgerEnv hardhatNetwork) emptyChain
      (fun name options signer st r st1 x st2 hd hg =>
        ledger_coherent hardhatNetwork name options signer st st1 st2 r x hd hg)⟩

/-- C7: the amounts are exact integers in 18-decimal base units. Every `transfer`
the script issues sends `10 * 10^18` to `0x047821Dc2b13F680FeD9B006F0868bE43AcF4fe6`,
every `approve` grants `100 * 10^18` to the address of the `DEX` handle, and every
`init` carries the token amount `5 * 10^17` (half of `10^18`), the attached value
`5 * 10^17` and the gas limit `200000`. -/
theorem amounts_in_base_units {σ : Type} (env : Env σ) (s : σ) (op : Op)
    (h : Event.call op ∈ (module.exports env s).trace) :
    (∀ c r amount, op = Op.transfer c r amount →
      r = "0x047821Dc2b13F680FeD9B006F0868bE43AcF4fe6" ∧ amount = 10 * 10 ^ 18) ∧
    (∀ c spender amount, op = Op.approve c spender amount →
      amount = 100 * 10 ^ 18 ∧
      ∃ signer d, Event.ret (Op.getContract "DEX" signer) (Resp.contract d) ∈
        (module.exports env s).trace ∧ spender = d.address) ∧
    (∀ c tokens overrides, op = Op.init c tokens overrides →
      tokens = 5 * 10 ^ 17 ∧ 2 * tokens = 10 ^ 18 ∧ overrides.value = 5 * 10 ^ 17 ∧
      overrides.gasLimit = 200000) := by
  unfold module.exports at h ⊢
  simp only [await, consoleLog, withEther, done, parseEther_ten, parseEther_hundred,
    parseEther_half] at h ⊢
  repeat' split at h
  all_goals simp only [List.mem_cons, List.mem_singleton, List.not_mem_nil, Event.call.injEq,
    or_false, false_or, reduceCtorEq] at h
  all_goals
    refine ⟨fun c r amount hop => ?_, fun c spender amount hop => ?_,
      fun c tokens overrides hop => ?_⟩ <;>
    subst hop <;>
    simp only [Op.transfer.injEq, Op.approve.injEq, Op.init.injEq, reduceCtorEq, or_false,
      false_or] at h
  all_goals obtain ⟨-, rfl, rfl⟩ := h
  all_goals first
    | exact ⟨rfl, rfl⟩
    | exact ⟨rfl, by norm_num, rfl, rfl⟩
    | (refine ⟨rfl, ?_⟩
       simp only [*]
       simp
       exact ⟨_, _, ⟨rfl, rfl⟩, rfl⟩)

/-- Witness for C7: the `init` call of the run on the in-process test network. -/
theorem amounts_in_base_units_witness :
    Event.call
        (Op.init ⟨"0xe7f1725E7734CE288F8367e1Bb143E90bb3F0512",
            "0xf39Fd6e51aad88F6F4ce6aB8827279cffFb92266"⟩ (5 * 10 ^ 17)
          ⟨5 * 10 ^ 17, 200000⟩) ∈
      (module.exports (ledgerEnv hardhatNetwork) emptyChain).trace ∧
    ((∀ c r amount,
        Op.init ⟨"0xe7f1725E7734CE288F8367e1Bb143E90bb3F0512",
            "0xf39Fd6e51aad88F6F4ce6aB8827279cffFb92266"⟩ (5 * 10 ^ 17)
          ⟨5 * 10 ^ 17, 200000⟩ = Op.transfer c r amount →
        r = "0x047821Dc2b13F680FeD9B006F0868bE43AcF4fe6" ∧ amount = 10 * 10 ^ 18) ∧
      (∀ c spender amount,
        Op.init ⟨"0xe7f1725E7734CE288F8367e1Bb143E90bb3F0512",
            "0xf39Fd6e51aad88F6F4ce6aB8827279cffFb92266"⟩ (5 * 10 ^ 17)
          ⟨5 * 10 ^ 17, 200000⟩ = Op.approve c spender amount →
        amount = 100 * 10 ^ 18 ∧
        ∃ signer d, Event.ret (Op.getContract "DEX" signer) (Resp.contract d) ∈
          (module.exports (ledgerEnv hardhatNetwork) emptyChain).trace ∧
          spender = d.address) ∧
      (∀ c tokens overrides,
        Op.init ⟨"0xe7f1725E7734CE288F8367e1Bb143E90bb3F0512",
            "0xf39Fd6e51aad88F6F4ce6aB8827279cffFb92266"⟩ (5 * 10 ^ 17)
          ⟨5 * 10 ^ 17, 200000⟩ = Op.init c tokens overrides →
        tokens = 5 * 10 ^ 17 ∧ 2 * tokens = 10 ^ 18 ∧ overrides.value = 5 * 10 ^ 17 ∧
        overrides.gasLimit = 200000)) :=
  ⟨by decide, amounts_in_base_units (ledgerEnv hardhatNetwork) emptyChain _ (by decide)⟩

/-- C8: every operation acts as the deployer. Provided `getContract` binds the
handle it returns to the signer it was asked for, every operation the script
issues that acts as some account (the `from` of a deploy, the signer a handle is
requested for, the signer of the handle a method is called on) acts as the
`deployer` that `getNamedAccounts` returned in this run. -/
theorem only_deployer_sends {σ : Type} (env : Env σ) (s : σ)
    (hbind : ∀ name signer st c st',
      env.getContract name signer st = (Settled.ok c, st') → c.signer = signer)
    (op : Op) (x : Address)
    (hop : Event.call op ∈ (module.exports env s).trace)
    (hx : op.account = some x) :
    ∃ a, Event.ret Op.getNamedAccounts (Resp.accounts a) ∈ (module.exports env s).trace ∧
      x = a.deployer := by
  unfold module.exports at hop ⊢
  simp only [await, consoleLog, withEther, done, parseEther_ten, parseEther_hundred,
    parseEther_half] at hop ⊢
  repeat' split at hop
  all_goals simp only [List.mem_cons, List.mem_singleton, List.not_mem_nil, Event.call.injEq,
    or_false, false_or, reduceCtorEq] at hop
  all_goals simp only [*]
  all_goals
    try have hb := hbind _ _ _ _ _ ‹env.getContract "Balloons" _ _ = (Settled.ok _, _)›
  all_goals
    try have hd := hbind _ _ _ _ _ ‹env.getContract "DEX" _ _ = (Settled.ok _, _)›
  all_goals try casesm* _ ∨ _
  all_goals subst_vars
  all_goals simp only [Op.account, Option.some.injEq, reduceCtorEq] at hx
  all_goals subst hx
  all_goals refine ⟨_, List.mem_cons_of_mem _ (List.mem_cons_self _ _), ?_⟩
  all_goals first | rfl | assumption

/-- Witness for C8: the `transfer` of the run on the in-process test network. -/
theorem only_deployer_sends_witness :
    (∀ name signer st c st',
      (ledgerEnv hardhatNetwork).getContract name signer st = (Settled.ok c, st') →
      c.signer = signer) ∧
    Event.call
        (Op.transfer ⟨"0x5FbDB2315678afecb367f032d93F642f64180aa3",
            "0xf39Fd6e51aad88F6F4ce6aB8827279cffFb92266"⟩
          "0x047821Dc2b13F680FeD9B006F0868bE43AcF4fe6" (10 * 10 ^ 18)) ∈
      (module.exports (ledgerEnv hardhatNetwork) emptyChain).trace ∧
    (Op.transfer ⟨"0x5FbDB2315678afecb367f032d93F642f64180aa3",
          "0xf39Fd6e51aad88F6F4ce6aB8827279cffFb92266"⟩
        "0x047821Dc2b13F680FeD9B006F0868bE43AcF4fe6" (10 * 10 ^ 18)).account =
      some "0xf39Fd6e51aad88F6F4ce6aB8827279cffFb92266" ∧
    ∃ a, Event.ret Op.getNamedAccounts (Resp.accounts a) ∈
        (module.exports (ledgerEnv hardhatNetwork) emptyChain).trace ∧
      "0xf39Fd6e51aad88F6F4ce6aB8827279cffFb92266" = a.deployer :=
  ⟨fun name signer st c st' h => (getContract_ok hardhatNetwork name signer st st' c h).2.2,
    by decide, by decide,
    only_deployer_sends (ledgerEnv hardhatNetwork) emptyChain
      (fun name signer st c st' h => (getContract_ok hardhatNetwork name signer st st' c h).2.2)
      (Op.transfer ⟨"0x5FbDB2315678afecb367f032d93F642f64180aa3",
          "0xf39Fd6e51aad88F6F4ce6aB8827279cffFb92266"⟩
        "0x047821Dc2b13F680FeD9B006F0868bE43AcF4fe6" (10 * 10 ^ 18))
      "0xf39Fd6e51aad88F6F4ce6aB8827279cffFb92266" (by decide) (by decide)⟩

/-- In `stuckEnv` the `DEX` deploy is issued and never returns. -/
theorem stuck_never_returns (r : Resp) :
    Event.ret (Op.deploy "DEX"
        ⟨"0xf39Fd6e51aad88F6F4ce6aB8827279cffFb92266",
          ["0x5FbDB2315678afecb367f032d93F642f64180aa3"], true, some 5⟩) r ∉
      (module.exports stuckEnv ()).trace := by
  intro hmem
  have htrace : (module.exports stuckEnv ()).trace.filter Event.stateChanging =
      [ Event.call (Op.deploy "Balloons"
          ⟨"0xf39Fd6e51aad88F6F4ce6aB8827279cffFb92266", [], true, none⟩),
        Event.ret (Op.deploy "Balloons"
          ⟨"0xf39Fd6e51aad88F6F4ce6aB8827279cffFb92266", [], true, none⟩)
          (Resp.deployed ⟨"0x5FbDB2315678afecb367f032d93F642f64180aa3", true⟩),
        Event.call (Op.deploy "DEX"
          ⟨"0xf39Fd6e51aad88F6F4ce6aB8827279cffFb92266",
            ["0x5FbDB2315678afecb367f032d93F642f64180aa3"], true, some 5⟩) ] := by
    decide
  have hin : Event.ret (Op.deploy "DEX"
      ⟨"0xf39Fd6e51aad88F6F4ce6aB8827279cffFb92266",
        ["0x5FbDB2315678afecb367f032d93F642f64180aa3"], true, some 5⟩) r ∈
      (module.exports stuckEnv ()).trace.filter Event.stateChanging :=
    List.mem_filter.mpr ⟨hmem, rfl⟩
  rw [htrace] at hin
  simp at hin

/-- C9 as stated fails: when the `DEX` deploy never settles, the run does not
report `ConfirmationTimeout`; it never settles either. -/
theorem stuck_deploy_reports_nothing :
    ¬ ReportsConfirmationTimeout (module.exports stuckEnv ()) := by
  intro hclaim
  have h := (hclaim ⟨"0xf39Fd6e51aad88F6F4ce6aB8827279cffFb92266",
      ["0x5FbDB2315678afecb367f032d93F642f64180aa3"], true, some 5⟩
    (by decide) stuck_never_returns).1
  revert h
  decide

/-- C9 amended: the script sets no timeout. If the `DEX` deploy was issued and
did not return, then either it never settles and the run never settles, ending
with the pending call, or it threw `e` and the run rejects with that same `e`;
in both cases none of `transfer`, `approve`, `init` is issued. -/
theorem unsettled_dex_deploy_halts {σ : Type} (env : Env σ) (s : σ) (options : DeployOptions)
    (hcall : Event.call (Op.deploy "DEX" options) ∈ (module.exports env s).trace)
    (hnot : ∀ r, Event.ret (Op.deploy "DEX" options) r ∉ (module.exports env s).trace) :
    ((module.exports env s).result = Settled.pending ∧
        (module.exports env s).trace.getLast? = some (Event.call (Op.deploy "DEX" options)) ∨
      ∃ e, (module.exports env s).result = Settled.threw e ∧
        (module.exports env s).trace.getLast? =
          some (Event.threw (Op.deploy "DEX" options) e)) ∧
    ∀ op, Event.call op ∈ (module.exports env s).trace → op.isBootstrap = false := by
  unfold module.exports at hcall hnot ⊢
  simp only [await, consoleLog, withEther, done, parseEther_ten, parseEther_hundred,
    parseEther_half] at hcall hnot ⊢
  repeat' split at hcall
  all_goals simp only [List.mem_cons, List.mem_singleton, List.not_mem_nil, Event.call.injEq,
    or_false, false_or, reduceCtorEq, Op.deploy.injEq, String.reduceEq, false_and] at hcall
  all_goals simp only [*] at hnot ⊢
  all_goals obtain ⟨-, rfl⟩ := hcall
  all_goals try simp at hnot
  all_goals simp [Op.isBootstrap]

/-- Witness for the amended C9: the `DEX` deploy of `stuckEnv` never settles. -/
theorem unsettled_dex_deploy_halts_witness :
    Event.call (Op.deploy "DEX"
        ⟨"0xf39Fd6e51aad88F6F4ce6aB8827279cffFb92266",
          ["0x5FbDB2315678afecb367f032d93F642f64180aa3"], true, some 5⟩) ∈
      (module.exports stuckEnv ()).trace ∧
    (∀ r, Event.ret (Op.deploy "DEX"
        ⟨"0xf39Fd6e51aad88F6F4ce6aB8827279cffFb92266",
          ["0x5FbDB2315678afecb367f032d93F642f64180aa3"], true, some 5⟩) r ∉
      (module.exports stuckEnv ()).trace) ∧
    (((module.exports stuckEnv ()).result = Settled.pending ∧
          (module.exports stuckEnv ()).trace.getLast? =
            some (Event.call (Op.deploy "DEX"
              ⟨"0xf39Fd6e51aad88F6F4ce6aB8827279cffFb92266",
                ["0x5FbDB2315678afecb367f032d93F642f64180aa3"], true, some 5⟩)) ∨
        ∃ e, (module.exports stuckEnv ()).result = Settled.threw e ∧
          (module.exports stuckEnv ()).trace.getLast? =
            some (Event.threw (Op.deploy "DEX"
              ⟨"0xf39Fd6e51aad88F6F4ce6aB8827279cffFb92266",
                ["0x5FbDB2315678afecb367f032d93F642f64180aa3"], true, some 5⟩) e)) ∧
      ∀ op, Event.call op ∈ (module.exports stuckEnv ()).trace → op.isBootstrap = false) :=
  ⟨by decide, stuck_never_returns,
    unsettled_dex_deploy_halts stuckEnv () _ (by decide) stuck_never_returns⟩

/-- C10: the call steps are not idempotent. On a network with persisted
deployments, after a fulfilled run (which submitted some deploys and then the
three bootstrap calls) a second run on the state it left behind is fulfilled,
both of its deploys are skipped (not newly deployed), and it submits exactly the
same three transactions `transfer`, `approve`, `init` again, with the same
arguments. -/
theorem second_run_repeats_calls (net : Network) (c : Chain)
    (h : (module.exports (ledgerEnv net) c).result = Settled.ok ()) :
    ∃ b d deploys,
      (∀ op ∈ deploys, op.isDeploy = true) ∧
      (module.exports (ledgerEnv net) c).final.submitted =
        c.submitted ++ deploys ++ bootstrapCalls b d ∧
      (module.exports (ledgerEnv net) (module.exports (ledgerEnv net) c).final).result =
        Settled.ok () ∧
      (∀ name options r,
        Event.ret (Op.deploy name options) (Resp.deployed r) ∈
          (module.exports (ledgerEnv net) (module.exports (ledgerEnv net) c).final).trace →
        r.newlyDeployed = false) ∧
      (module.exports (ledgerEnv net) (module.exports (ledgerEnv net) c).final).final.submitted =
        (module.exports (ledgerEnv net) c).final.submitted ++ bootstrapCalls b d := by
  obtain ⟨r1, b, r2, d, deploys, -, -, -, hdeploys, hsub, hrun⟩ := ledger_rerun net c h
  refine ⟨b, d, deploys, hdeploys, hsub, ?_, ?_, ?_⟩
  · rw [hrun]
  · intro name options r hmem
    rw [hrun] at hmem
    simp only [successTrace, List.mem_cons, List.mem_singleton, Event.ret.injEq,
      reduceCtorEq, false_and, false_or, or_false, Resp.deployed.injEq, List.not_mem_nil] at hmem
    rcases hmem with ⟨-, rfl⟩ | ⟨-, rfl⟩ <;> rfl
  · rw [hrun]

/-- Witness for C10 on the in-process test network. -/
theorem second_run_repeats_calls_witness :
    (module.exports (ledgerEnv hardhatNetwork) emptyChain).result = Settled.ok () ∧
    ∃ b d deploys,
      (∀ op ∈ deploys, op.isDeploy = true) ∧
      (module.exports (ledgerEnv hardhatNetwork) emptyChain).final.submitted =
        emptyChain.submitted ++ deploys ++ bootstrapCalls b d ∧
      (module.exports (ledgerEnv hardhatNetwork)
          (module.exports (ledgerEnv hardhatNetwork) emptyChain).final).result =
        Settled.ok () ∧
      (∀ name options r,
        Event.ret (Op.deploy name options) (Resp.deployed r) ∈
          (module.exports (ledgerEnv hardhatNetwork)
            (module.exports (ledgerEnv hardhatNetwork) emptyChain).final).trace →
        r.newlyDeployed = false) ∧
      (module.exports (ledgerEnv hardhatNetwork)
          (module.exports (ledgerEnv hardhatNetwork) emptyChain).final).final.submitted =
        (module.exports (ledgerEnv hardhatNetwork) emptyChain).final.submitted ++
          bootstrapCalls b d :=
  ⟨by decide, second_run_repeats_calls hardhatNetwork emptyChain (by decide)⟩

end Dex
